import Mathlib

/-!
Verification of the project-file editing script add_test_target.py
(src/paykit-mobile/ios-demo/add_test_target.py).

The script reads an Xcode project.pbxproj file into a string, checks that the
hard-coded main-target anchor is present, then splices a fixed set of text
blocks (parameterised only by freshly generated 24-character hex IDs) into the
string at positions located by regex searches, writes the string back and
returns True; if the main anchor is missing it returns False without writing.

The embedding below represents the file content as a List Char.  Each Python
edit content = content[:pos] + block + content[pos:] becomes insertAt, each
re.search of a literal pattern becomes findOcc (leftmost match), and the two
regexes of the form LITERAL [^brace]+ children = ( become searchBC
(leftmost start, greedy extent, with exactly the semantics the Python re module gives these
patterns).  The eight generate_id() values bound to locals, plus the one
generated inline in the native-target block, are passed in as the fields of
an Ids record, and uuid.uuid4() itself is modelled by an arbitrary value
below 2 to the 128.  File writes are modelled by the returned value: the
function returns some newContent when the script writes newContent and
returns True, and none when it prints an error and returns False without
writing.  The pair state St additionally records the list of blocks actually
spliced in, in order, so that size accounting can be stated.
-/

namespace AddTestTarget

open scoped List

/-- Character list of a string literal; file content is modelled as List Char. -/
def ofStr (s : String) : List Char := s.data

/-- Uppercase hexadecimal digit test: 0-9 or A-F. -/
def isHexUpper (c : Char) : Bool := (('0' ≤ c) && (c ≤ '9')) || (('A' ≤ c) && (c ≤ 'F'))

/-- Pattern p matches in s at position i (a literal regex match at i). -/
def occursAtB (p s : List Char) (i : Nat) : Bool := p.isPrefixOf (s.drop i)

/-- Leftmost position where the literal pattern p matches in s; this is
re.search for a pattern with no metacharacters (none means no match). -/
def findOcc (p s : List Char) : Option Nat :=
  (List.range (s.length + 1)).find? (fun i => occursAtB p s i)

/-- Number of positions at which p matches in s. -/
def countOcc (p s : List Char) : Nat :=
  (List.range (s.length + 1)).countP (fun i => occursAtB p s i)

/-- The splice content[:i] + b + content[i:] used by every edit of the script. -/
def insertAt (i : Nat) (b s : List Char) : List Char := s.take i ++ b ++ s.drop i

/-- Literal tail of the two bracket regexes at lines 53 and 74 of the script. -/
def children_pat : List Char := ofStr "children = ("

/-- Match end of the regex fragment one-or-more-non-brace-characters followed
by children_pat, anchored at j: the greedy semantics of the Python re module pick the largest
viable extent, so the largest k with the k characters after j all different
from the closing brace and children_pat matching right after them wins. -/
def bcEnd (s : List Char) (j : Nat) : Option Nat :=
  (((List.range (((s.drop j).takeWhile (fun ch => ch != '\x7d')).length)).reverse.find?
    (fun k => occursAtB children_pat s (j + k + 1))).map
    (fun k => j + k + 1 + children_pat.length))

/-- re.search().end() for the two regexes of the shape LITERAL
one-or-more-non-brace-characters children_pat: leftmost matching start wins,
the greedy extent of that match gives the end. -/
def searchBC (lit s : List Char) : Option Nat :=
  ((List.range (s.length + 1)).find?
    (fun i => occursAtB lit s i && (bcEnd s (i + lit.length)).isSome)).bind
    (fun i => bcEnd s (i + lit.length))

/-- Main-target anchor pattern of line 36. -/
def main_target_pat : List Char := ofStr "5224F5F42EED89A600A4DEB4 /* PaykitDemo */"

/-- Anchor of line 43. -/
def file_ref_begin_pat : List Char := ofStr "/* Begin PBXFileReference section */"

/-- Anchor of line 50. -/
def group_begin_pat : List Char := ofStr "/* Begin PBXGroup section */"

/-- Anchor of line 60. -/
def group_end_pat : List Char := ofStr "/* End PBXGroup section */"

/-- Literal head of the main-group regex of line 53. -/
def main_group_lit : List Char := ofStr "5224F5EC2EED89A600A4DEB4 = \x7b"

/-- Literal head of the Products-group regex of line 74. -/
def products_lit : List Char := ofStr "5224F5F62EED89A600A4DEB4 /* Products */ = \x7b"

/-- Anchor of line 81. -/
def sources_end_pat : List Char := ofStr "/* End PBXSourcesBuildPhase section */"

/-- Anchor of line 94. -/
def frameworks_end_pat : List Char := ofStr "/* End PBXFrameworksBuildPhase section */"

/-- Anchor of line 108. -/
def native_end_pat : List Char := ofStr "/* End PBXNativeTarget section */"

/-- Anchor of line 134. -/
def targets_pat : List Char := ofStr "targets = ("

/-- Anchor of line 141. -/
def config_end_pat : List Char := ofStr "/* End XCConfigurationList section */"

/-- Anchor of line 203. -/
def target_attrs_pat : List Char := ofStr "TargetAttributes = \x7b"

/-- The generate_id() values drawn at lines 26-33, in source order, plus
dep_id for the call made inline at line 121 inside the native-target block. -/
structure Ids where
  test_target_id : List Char
  test_product_id : List Char
  test_sources_phase_id : List Char
  test_frameworks_phase_id : List Char
  test_build_config_list_id : List Char
  test_debug_config_id : List Char
  test_release_config_id : List Char
  test_group_id : List Char
  dep_id : List Char

/-- Block text of line 46 (test_file_ref). -/
def test_file_ref (ids : Ids) : List Char :=
  ofStr "\t\t" ++
  ids.test_product_id ++
  ofStr " /* PaykitDemoTests.xctest */ = \x7bisa = PBXFileReference; explicitFileType = wrapper.cfbundle; includeInIndex = 0; path = PaykitDemoTests.xctest; sourceTree = BUILT_PRODUCTS_DIR; \x7d;\n"

/-- Block text of line 56 (test_group_ref). -/
def test_group_ref (ids : Ids) : List Char :=
  ofStr "\t\t\t\t" ++
  ids.test_group_id ++
  ofStr " /* PaykitDemoTests */,\n"

/-- Block text of lines 63-70 (test_group_def). -/
def test_group_def (ids : Ids) : List Char :=
  ofStr "\t\t" ++
  ids.test_group_id ++
  ofStr " /* PaykitDemoTests */ = \x7b\n\t\t\tisa = PBXGroup;\n\t\t\tchildren = (\n\t\t\t);\n\t\t\tpath = PaykitDemoTests;\n\t\t\tsourceTree = \"<group>\";\n\t\t\x7d;\n"

/-- Block text of line 77 (test_product_ref). -/
def test_product_ref (ids : Ids) : List Char :=
  ofStr "\t\t\t\t" ++
  ids.test_product_id ++
  ofStr " /* PaykitDemoTests.xctest */,\n"

/-- Block text of lines 84-91 (test_sources_phase). -/
def test_sources_phase (ids : Ids) : List Char :=
  ofStr "\t\t" ++
  ids.test_sources_phase_id ++
  ofStr " /* Sources */ = \x7b\n\t\t\tisa = PBXSourcesBuildPhase;\n\t\t\tbuildActionMask = 2147483647;\n\t\t\tfiles = (\n\t\t\t);\n\t\t\trunOnlyForDeploymentPostprocessing = 0;\n\t\t\x7d;\n"

/-- Block text of lines 97-104 (test_frameworks_phase). -/
def test_frameworks_phase (ids : Ids) : List Char :=
  ofStr "\t\t" ++
  ids.test_frameworks_phase_id ++
  ofStr " /* Frameworks */ = \x7b\n\t\t\tisa = PBXFrameworksBuildPhase;\n\t\t\tbuildActionMask = 2147483647;\n\t\t\tfiles = (\n\t\t\t);\n\t\t\trunOnlyForDeploymentPostprocessing = 0;\n\t\t\x7d;\n"

/-- Block text of lines 111-130 (test_target), the native-target record. -/
def test_target (ids : Ids) : List Char :=
  ofStr "\t\t" ++
  ids.test_target_id ++
  ofStr " /* PaykitDemoTests */ = \x7b\n\t\t\tisa = PBXNativeTarget;\n\t\t\tbuildConfigurationList = " ++
  ids.test_build_config_list_id ++
  ofStr " /* Build configuration list for PBXNativeTarget \"PaykitDemoTests\" */;\n\t\t\tbuildPhases = (\n\t\t\t\t" ++
  ids.test_sources_phase_id ++
  ofStr " /* Sources */,\n\t\t\t\t" ++
  ids.test_frameworks_phase_id ++
  ofStr " /* Frameworks */,\n\t\t\t);\n\t\t\tbuildRules = (\n\t\t\t);\n\t\t\tdependencies = (\n\t\t\t\t" ++
  ids.dep_id ++
  ofStr " /* PBXTargetDependency */,\n\t\t\t);\n\t\t\tname = PaykitDemoTests;\n\t\t\tpackageProductDependencies = (\n\t\t\t);\n\t\t\tproductName = PaykitDemoTests;\n\t\t\tproductReference = " ++
  ids.test_product_id ++
  ofStr " /* PaykitDemoTests.xctest */;\n\t\t\tproductType = \"com.apple.product-type.bundle.unit-test\";\n\t\t\x7d;\n"

/-- Block text of line 137 (test_target_ref). -/
def test_target_ref (ids : Ids) : List Char :=
  ofStr "\t\t\t\t" ++
  ids.test_target_id ++
  ofStr " /* PaykitDemoTests */,\n"

/-- Block text of lines 144-199 (test_debug_config): the Debug configuration,
the Release configuration and the configuration list, as one string. -/
def test_debug_config (ids : Ids) : List Char :=
  ofStr "\t\t" ++
  ids.test_debug_config_id ++
  ofStr " /* Debug */ = \x7b\n\t\t\tisa = XCBuildConfiguration;\n\t\t\tbuildSettings = \x7b\n\t\t\t\tBUNDLE_LOADER = \"$(TEST_HOST)\";\n\t\t\t\tCODE_SIGN_STYLE = Automatic;\n\t\t\t\tCURRENT_PROJECT_VERSION = 1;\n\t\t\t\tGENERATE_INFOPLIST_FILE = YES;\n\t\t\t\tINFOPLIST_KEY_UIApplicationSupportsIndirectInputEvents = YES;\n\t\t\t\tIPHONEOS_DEPLOYMENT_TARGET = 16.6;\n\t\t\t\tLD_RUNPATH_SEARCH_PATHS = (\n\t\t\t\t\t\"$(inherited)\",\n\t\t\t\t\t\"@executable_path/Frameworks\",\n\t\t\t\t\t\"@loader_path/Frameworks\",\n\t\t\t\t);\n\t\t\t\tMARKETING_VERSION = 1.0;\n\t\t\t\tPRODUCT_BUNDLE_IDENTIFIER = synonym.PaykitDemoTests;\n\t\t\t\tPRODUCT_NAME = \"$(TARGET_NAME)\";\n\t\t\t\tSWIFT_EMIT_LOC_STRINGS = NO;\n\t\t\t\tSWIFT_VERSION = 5.0;\n\t\t\t\tTEST_HOST = \"$(BUILT_PRODUCTS_DIR)/PaykitDemo.app/$(BUNDLE_EXECUTABLE_FOLDER_PATH)/PaykitDemo\";\n\t\t\t\x7d;\n\t\t\tname = Debug;\n\t\t\x7d;\n\t\t" ++
  ids.test_release_config_id ++
  ofStr " /* Release */ = \x7b\n\t\t\tisa = XCBuildConfiguration;\n\t\t\tbuildSettings = \x7b\n\t\t\t\tBUNDLE_LOADER = \"$(TEST_HOST)\";\n\t\t\t\tCODE_SIGN_STYLE = Automatic;\n\t\t\t\tCURRENT_PROJECT_VERSION = 1;\n\t\t\t\tGENERATE_INFOPLIST_FILE = YES;\n\t\t\t\tINFOPLIST_KEY_UIApplicationSupportsIndirectInputEvents = YES;\n\t\t\t\tIPHONEOS_DEPLOYMENT_TARGET = 16.6;\n\t\t\t\tLD_RUNPATH_SEARCH_PATHS = (\n\t\t\t\t\t\"$(inherited)\",\n\t\t\t\t\t\"@executable_path/Frameworks\",\n\t\t\t\t\"@loader_path/Frameworks\",\n\t\t\t);\n\t\t\t\tMARKETING_VERSION = 1.0;\n\t\t\t\tPRODUCT_BUNDLE_IDENTIFIER = synonym.PaykitDemoTests;\n\t\t\t\tPRODUCT_NAME = \"$(TARGET_NAME)\";\n\t\t\t\tSWIFT_EMIT_LOC_STRINGS = NO;\n\t\t\t\tSWIFT_VERSION = 5.0;\n\t\t\t\tTEST_HOST = \"$(BUILT_PRODUCTS_DIR)/PaykitDemo.app/$(BUNDLE_EXECUTABLE_FOLDER_PATH)/PaykitDemo\";\n\t\t\t\x7d;\n\t\t\tname = Release;\n\t\t\x7d;\n\t\t" ++
  ids.test_build_config_list_id ++
  ofStr " /* Build configuration list for PBXNativeTarget \"PaykitDemoTests\" */ = \x7b\n\t\t\tisa = XCConfigurationList;\n\t\t\tbuildConfigurations = (\n\t\t\t\t" ++
  ids.test_debug_config_id ++
  ofStr " /* Debug */,\n\t\t\t\t" ++
  ids.test_release_config_id ++
  ofStr " /* Release */,\n\t\t\t);\n\t\t\tdefaultConfigurationIsVisible = 0;\n\t\t\tdefaultConfigurationName = Release;\n\t\t\x7d;\n"

/-- Block text of lines 206-210 (test_target_attrs). -/
def test_target_attrs (ids : Ids) : List Char :=
  ofStr "\t\t\t\t" ++
  ids.test_target_id ++
  ofStr " = \x7b\n\t\t\t\t\tCreatedOnToolsVersion = 26.1.1;\n\t\t\t\t\tTestTargetID = 5224F5F42EED89A600A4DEB4;\n\t\t\t\t\x7d;\n"

/-- Edit state: the current file content together with the blocks spliced in
so far, in order. -/
abbrev St := List Char × List (List Char)

/-- Lines 43-47: test_file_ref is inserted right after the end of the first
occurrence of the Begin PBXFileReference marker, when that marker is found. -/
def step_file_ref (ids : Ids) (p : St) : St :=
  match findOcc file_ref_begin_pat p.1 with
  | none => p
  | some i => (insertAt (i + file_ref_begin_pat.length) (test_file_ref ids) p.1,
      p.2 ++ [test_file_ref ids])

/-- Lines 50-71: when the Begin PBXGroup marker is found, test_group_ref is
inserted at the match end of the main-group regex (if it matches), then
test_group_def is inserted at the start of the first End PBXGroup marker of
the updated content (if present).  The two sequential inner conditionals of
lines 54-57 and 60-71 are expanded into their four cases. -/
def step_group (ids : Ids) (p : St) : St :=
  match findOcc group_begin_pat p.1 with
  | none => p
  | some _ =>
    match searchBC main_group_lit p.1 with
    | none =>
      match findOcc group_end_pat p.1 with
      | none => p
      | some i => (insertAt i (test_group_def ids) p.1, p.2 ++ [test_group_def ids])
    | some e =>
      match findOcc group_end_pat (insertAt e (test_group_ref ids) p.1) with
      | none => (insertAt e (test_group_ref ids) p.1, p.2 ++ [test_group_ref ids])
      | some i =>
        (insertAt i (test_group_def ids) (insertAt e (test_group_ref ids) p.1),
          (p.2 ++ [test_group_ref ids]) ++ [test_group_def ids])

/-- Lines 74-78: test_product_ref is inserted at the match end of the
Products-group regex, when it matches. -/
def step_products (ids : Ids) (p : St) : St :=
  match searchBC products_lit p.1 with
  | none => p
  | some e => (insertAt e (test_product_ref ids) p.1, p.2 ++ [test_product_ref ids])

/-- Lines 81-92: test_sources_phase is inserted at the start of the first
End PBXSourcesBuildPhase marker, when it is found. -/
def step_sources (ids : Ids) (p : St) : St :=
  match findOcc sources_end_pat p.1 with
  | none => p
  | some i => (insertAt i (test_sources_phase ids) p.1, p.2 ++ [test_sources_phase ids])

/-- Lines 94-105: test_frameworks_phase is inserted at the start of the first
End PBXFrameworksBuildPhase marker, when it is found. -/
def step_frameworks (ids : Ids) (p : St) : St :=
  match findOcc frameworks_end_pat p.1 with
  | none => p
  | some i => (insertAt i (test_frameworks_phase ids) p.1, p.2 ++ [test_frameworks_phase ids])

/-- Lines 108-131: test_target is inserted at the start of the first
End PBXNativeTarget marker, when it is found. -/
def step_native_target (ids : Ids) (p : St) : St :=
  match findOcc native_end_pat p.1 with
  | none => p
  | some i => (insertAt i (test_target ids) p.1, p.2 ++ [test_target ids])

/-- Lines 134-138: test_target_ref is inserted right after the end of the
first occurrence of the targets list opener, when it is found. -/
def step_targets_list (ids : Ids) (p : St) : St :=
  match findOcc targets_pat p.1 with
  | none => p
  | some i => (insertAt (i + targets_pat.length) (test_target_ref ids) p.1,
      p.2 ++ [test_target_ref ids])

/-- Lines 141-200: test_debug_config is inserted at the start of the first
End XCConfigurationList marker, when it is found. -/
def step_configs (ids : Ids) (p : St) : St :=
  match findOcc config_end_pat p.1 with
  | none => p
  | some i => (insertAt i (test_debug_config ids) p.1, p.2 ++ [test_debug_config ids])

/-- Lines 203-211: test_target_attrs is inserted right after the end of the
first occurrence of the TargetAttributes opener, when it is found. -/
def step_target_attrs (ids : Ids) (p : St) : St :=
  match findOcc target_attrs_pat p.1 with
  | none => p
  | some i => (insertAt (i + target_attrs_pat.length) (test_target_attrs ids) p.1,
      p.2 ++ [test_target_attrs ids])

/-- The nine guarded edits of lines 41-211, in source order. -/
def run_edits (ids : Ids) (p : St) : St :=
  step_target_attrs ids (step_configs ids (step_targets_list ids
    (step_native_target ids (step_frameworks ids (step_sources ids
      (step_products ids (step_group ids (step_file_ref ids p))))))))

/-- Edits of lines 41-211 applied after the first one, i.e. run_edits with
step_file_ref already performed. -/
def edits_after_file_ref (ids : Ids) (p : St) : St :=
  step_target_attrs ids (step_configs ids (step_targets_list ids
    (step_native_target ids (step_frameworks ids (step_sources ids
      (step_products ids (step_group ids p)))))))

/-- add_test_target of lines 19-219: if the main-target anchor is absent the
script prints an error and returns False without writing (modelled as none);
otherwise it performs the guarded edits, writes the result back and returns
True (modelled as some of the written content). -/
def add_test_target (ids : Ids) (content : List Char) : Option (List Char) :=
  match findOcc main_target_pat content with
  | none => none
  | some _ => some (run_edits ids (content, [])).1

/-- The blocks that add_test_target actually splices into content, in order. -/
def inserted_blocks (ids : Ids) (content : List Char) : List (List Char) :=
  (run_edits ids (content, [])).2

/-- Lines 221-228, the script entry point: the message printed last and the
exit status, as a function of what add_test_target returns. -/
def main_exit (ids : Ids) (content : List Char) : String × Nat :=
  match add_test_target ids content with
  | some _ => ("Successfully added test target", 0)
  | none => ("Failed to add test target", 1)

/-- Lowercase hex digits of n, most significant first. -/
def hexChars (n : Nat) : List Char := ((Nat.digits 16 n).map Nat.digitChar).reverse

/-- The 32-character zero-padded lowercase hex rendering of a 128-bit value,
which is exactly what uuid.uuid4().hex yields for the drawn uuid value. -/
def uuidHex (n : Nat) : List Char :=
  List.replicate (32 - (hexChars n).length) '0' ++ hexChars n

/-- generate_id of lines 15-17: uuid.uuid4().hex[:24].upper(), with the drawn
128-bit uuid value passed explicitly as n. -/
def generate_id (n : Nat) : List Char := ((uuidHex n).take 24).map Char.toUpper

/-- Scanner for runs of uppercase-hex characters: cur is the length of the
current run; the result is true when some run reaches 24. -/
def hexRunGo : List Char → Nat → Bool
  | [], _ => false
  | c :: cs, cur =>
    if isHexUpper c then decide (24 ≤ cur + 1) || hexRunGo cs (cur + 1)
    else hexRunGo cs 0

/-- s contains 24 consecutive uppercase-hex characters somewhere. -/
def hasHexRun24 (s : List Char) : Bool := hexRunGo s 0

/-- Concrete 24-character id used by the witnesses: 23 zeros and one final
digit d. -/
def wid (d : Char) : List Char := List.replicate 23 '0' ++ [d]

/-- Concrete id assignment used by the witnesses. -/
def wids : Ids :=
  ⟨wid '1', wid '2', wid '3', wid '4', wid '5', wid '6', wid '7', wid '8', wid '9'⟩

/-- Witness content for the dangling-dependency claim: the main anchor, a
newline, and the End PBXNativeTarget marker. -/
def wc10 : List Char := main_target_pat ++ ofStr "\n" ++ native_end_pat

set_option maxRecDepth 100000

set_option maxHeartbeats 4000000

theorem occursAtB_iff (p s : List Char) (i : Nat) :
    occursAtB p s i = true ↔ p <+: s.drop i := by
  simp [occursAtB, List.isPrefixOf_iff_prefix]

theorem occursAtB_bound {p s : List Char} {i : Nat} (hp : p ≠ [])
    (h : occursAtB p s i = true) : i + p.length ≤ s.length := by
  rw [occursAtB_iff] at h
  have h1 : p.length ≤ (s.drop i).length := h.length_le
  have h2 : 0 < p.length := List.length_pos.mpr hp
  simp only [List.length_drop] at h1
  omega

theorem front_append_iff_of_le {p a y : List Char} (h : p.length ≤ a.length) :
    (p <+: a ++ y) ↔ p <+: a := by
  rw [List.prefix_iff_eq_take, List.prefix_iff_eq_take, List.take_append_eq_append_take,
    Nat.sub_eq_zero_of_le h, List.take_zero, List.append_nil]

theorem occursAtB_append_left {p x y : List Char} {i : Nat}
    (h : i + p.length ≤ x.length) :
    (occursAtB p (x ++ y) i = true ↔ occursAtB p x i = true) := by
  have hi : i ≤ x.length := le_trans (Nat.le_add_right i p.length) h
  rw [occursAtB_iff, occursAtB_iff, List.drop_append_eq_append_drop,
    Nat.sub_eq_zero_of_le hi, List.drop_zero]
  refine front_append_iff_of_le ?_
  simp only [List.length_drop]
  omega

theorem occursAtB_append_right {p x y : List Char} {i : Nat} (h : x.length ≤ i) :
    occursAtB p (x ++ y) i = occursAtB p y (i - x.length) := by
  unfold occursAtB
  rw [List.drop_append_eq_append_drop, List.drop_eq_nil_of_le h, List.nil_append]

theorem occursAtB_getElem {p s : List Char} {i j : Nat}
    (h : occursAtB p s i = true) (hj : j < p.length) :
    s[i + j]? = p[j]? := by
  rw [occursAtB_iff, List.prefix_iff_eq_take] at h
  conv_rhs => rw [h]
  rw [List.getElem?_take_of_lt hj, List.getElem?_drop]

theorem occursAtB_self (p : List Char) : occursAtB p p 0 = true := by
  rw [occursAtB_iff, List.drop_zero]

theorem countOcc_append {p x y : List Char} (hp : p ≠ [])
    (hns : ∀ i, occursAtB p (x ++ y) i = true → i + p.length ≤ x.length ∨ x.length ≤ i) :
    countOcc p (x ++ y) = countOcc p x + countOcc p y := by
  have hpl : 0 < p.length := List.length_pos.mpr hp
  unfold countOcc
  have e : (x ++ y).length + 1 = x.length + (y.length + 1) := by
    simp only [List.length_append]
    omega
  rw [e, List.range_add, List.countP_append, List.countP_map]
  congr 1
  · rw [List.range_succ, List.countP_append]
    have hz : List.countP (fun i => occursAtB p x i) [x.length] = 0 := by
      simp only [List.countP_cons, List.countP_nil]
      have hf : ¬ occursAtB p x x.length = true := by
        intro hcon
        have := occursAtB_bound hp hcon
        omega
      simp [hf]
    rw [hz, Nat.add_zero]
    apply List.countP_congr
    intro i hi
    rw [List.mem_range] at hi
    constructor
    · intro hf
      rcases hns i hf with h1 | h1
      · exact (occursAtB_append_left h1).mp hf
      · omega
    · intro hg
      have hb := occursAtB_bound hp hg
      exact (occursAtB_append_left hb).mpr hg
  · apply List.countP_congr
    intro i _
    have h1 : x.length ≤ x.length + i := Nat.le_add_right _ _
    simp only [Function.comp]
    rw [occursAtB_append_right h1, Nat.add_sub_cancel_left]

theorem head?_append_some {x y : List Char} {c : Char} (h : x.head? = some c) :
    (x ++ y).head? = some c := by
  rw [List.head?_append, h]
  rfl

theorem getLast?_append_some {x y : List Char} {c : Char} (h : y.getLast? = some c) :
    (x ++ y).getLast? = some c := by
  rw [List.getLast?_append, h]
  rfl

theorem countOcc_append_of_head {p x y : List Char} {c : Char} (hp : p ≠ [])
    (hphex : ∀ ch ∈ p, isHexUpper ch = true)
    (hc : y.head? = some c) (hcf : isHexUpper c = false) :
    countOcc p (x ++ y) = countOcc p x + countOcc p y := by
  apply countOcc_append hp
  intro i hi
  by_contra hcon
  push_neg at hcon
  obtain ⟨h1, h2⟩ := hcon
  have hj : x.length - i < p.length := by omega
  have he := occursAtB_getElem hi hj
  have hix : i + (x.length - i) = x.length := by omega
  rw [hix, List.getElem?_append_right (Nat.le_refl x.length), Nat.sub_self,
    ← List.head?_eq_getElem?, hc] at he
  have hmem : c ∈ p := List.getElem?_mem he.symm
  have := hphex c hmem
  rw [hcf] at this
  exact Bool.false_ne_true this

theorem countOcc_append_of_last {p x y : List Char} {c : Char} (hp : p ≠ [])
    (hphex : ∀ ch ∈ p, isHexUpper ch = true)
    (hc : x.getLast? = some c) (hcf : isHexUpper c = false) :
    countOcc p (x ++ y) = countOcc p x + countOcc p y := by
  apply countOcc_append hp
  intro i hi
  by_contra hcon
  push_neg at hcon
  obtain ⟨h1, h2⟩ := hcon
  have hxne : x ≠ [] := by
    intro hn
    rw [hn] at hc
    simp at hc
  have hxpos : 0 < x.length := List.length_pos.mpr hxne
  have hj : (x.length - 1) - i < p.length := by omega
  have he := occursAtB_getElem hi hj
  have hix : i + ((x.length - 1) - i) = x.length - 1 := by omega
  rw [hix, List.getElem?_append_left (by omega), ← List.getLast?_eq_getElem?, hc] at he
  have hmem : c ∈ p := List.getElem?_mem he.symm
  have := hphex c hmem
  rw [hcf] at this
  exact Bool.false_ne_true this

theorem countOcc_take_drop {p c : List Char} {q : Nat} (hp : p ≠ []) (hq : q ≤ c.length)
    (hns : ∀ i, occursAtB p c i = true → i + p.length ≤ q ∨ q ≤ i) :
    countOcc p (c.take q) + countOcc p (c.drop q) = countOcc p c := by
  have e : c.take q ++ c.drop q = c := List.take_append_drop q c
  have hlen : (c.take q).length = q := by
    rw [List.length_take]
    omega
  have h2 := countOcc_append (x := c.take q) (y := c.drop q) hp ?ns
  · rw [e] at h2
    omega
  case ns =>
    intro i hi
    rw [e] at hi
    rw [hlen]
    exact hns i hi

theorem countOcc_insertAt {p b c : List Char} {q : Nat} (hp : p ≠ [])
    (hphex : ∀ ch ∈ p, isHexUpper ch = true)
    (hq : q ≤ c.length)
    (hbh : ∃ ch, b.head? = some ch ∧ isHexUpper ch = false)
    (hbl : ∃ ch, b.getLast? = some ch ∧ isHexUpper ch = false)
    (hns : ∀ i, occursAtB p c i = true → i + p.length ≤ q ∨ q ≤ i) :
    countOcc p (insertAt q b c) = countOcc p c + countOcc p b := by
  unfold insertAt
  rw [List.append_assoc]
  obtain ⟨ch, hch, hchf⟩ := hbh
  obtain ⟨cl, hcl, hclf⟩ := hbl
  rw [countOcc_append_of_head hp hphex (head?_append_some hch) hchf]
  rw [countOcc_append_of_last hp hphex hcl hclf]
  have := countOcc_take_drop hp hq hns
  omega

theorem countOcc_insertAt_end_anchor {p pa b s : List Char} {m : Nat} (hp : p ≠ [])
    (hphex : ∀ ch ∈ p, isHexUpper ch = true)
    (hpa : pa ≠ []) (hocc : occursAtB pa s m = true)
    (hlast : ∃ ch, pa.getLast? = some ch ∧ isHexUpper ch = false)
    (hbh : ∃ ch, b.head? = some ch ∧ isHexUpper ch = false)
    (hbl : ∃ ch, b.getLast? = some ch ∧ isHexUpper ch = false) :
    countOcc p (insertAt (m + pa.length) b s) = countOcc p s + countOcc p b := by
  apply countOcc_insertAt hp hphex (occursAtB_bound hpa hocc) hbh hbl
  intro i hi
  by_contra hcon
  push_neg at hcon
  obtain ⟨h1, h2⟩ := hcon
  obtain ⟨ch, hch, hchf⟩ := hlast
  have hpapos : 0 < pa.length := List.length_pos.mpr hpa
  have hppos : 0 < p.length := List.length_pos.mpr hp
  have e1 : s[m + (pa.length - 1)]? = pa[pa.length - 1]? := occursAtB_getElem hocc (by omega)
  rw [List.getLast?_eq_getElem?] at hch
  have hj : (m + pa.length - 1) - i < p.length := by omega
  have e2 : s[i + ((m + pa.length - 1) - i)]? = p[(m + pa.length - 1) - i]? :=
    occursAtB_getElem hi hj
  have hieq : i + ((m + pa.length - 1) - i) = m + (pa.length - 1) := by omega
  rw [hieq] at e2
  have hmem : ch ∈ p := List.getElem?_mem (by rw [← e2, e1, hch])
  have := hphex ch hmem
  rw [hchf] at this
  exact Bool.false_ne_true this

theorem countOcc_insertAt_start_anchor {p pa b s : List Char} {m : Nat} (hp : p ≠ [])
    (hphex : ∀ ch ∈ p, isHexUpper ch = true)
    (hpa : pa ≠ []) (hocc : occursAtB pa s m = true)
    (hhead : ∃ ch, pa.head? = some ch ∧ isHexUpper ch = false)
    (hbh : ∃ ch, b.head? = some ch ∧ isHexUpper ch = false)
    (hbl : ∃ ch, b.getLast? = some ch ∧ isHexUpper ch = false) :
    countOcc p (insertAt m b s) = countOcc p s + countOcc p b := by
  have hqle : m ≤ s.length := by
    have := occursAtB_bound hpa hocc
    omega
  apply countOcc_insertAt hp hphex hqle hbh hbl
  intro i hi
  by_contra hcon
  push_neg at hcon
  obtain ⟨h1, h2⟩ := hcon
  obtain ⟨ch, hch, hchf⟩ := hhead
  have hpapos : 0 < pa.length := List.length_pos.mpr hpa
  have e1 : s[m + 0]? = pa[0]? := occursAtB_getElem hocc (by omega)
  rw [List.head?_eq_getElem?] at hch
  have hj : m - i < p.length := by omega
  have e2 : s[i + (m - i)]? = p[m - i]? := occursAtB_getElem hi hj
  have hieq : i + (m - i) = m + 0 := by omega
  rw [hieq] at e2
  have hmem : ch ∈ p := List.getElem?_mem (by rw [← e2, e1, hch])
  have := hphex ch hmem
  rw [hchf] at this
  exact Bool.false_ne_true this

theorem countOcc_nil {p : List Char} (hp : p ≠ []) : countOcc p [] = 0 := by
  unfold countOcc
  rw [List.countP_eq_zero]
  intro i _ hcon
  have h1 := occursAtB_bound hp hcon
  have h2 := List.length_pos.mpr hp
  simp only [List.length_nil] at h1
  omega

theorem countOcc_self {p : List Char} (hp : p ≠ []) : countOcc p p = 1 := by
  have hppos : 0 < p.length := List.length_pos.mpr hp
  unfold countOcc
  rw [List.range_succ_eq_map, List.countP_cons, List.countP_map]
  have hz : List.countP ((fun i => occursAtB p p i) ∘ Nat.succ) (List.range p.length) = 0 := by
    rw [List.countP_eq_zero]
    intro i _
    simp only [Function.comp]
    intro hcon
    have := occursAtB_bound hp hcon
    omega
  rw [hz, if_pos (occursAtB_self p)]

theorem countOcc_eq_zero_of_ne {p s : List Char} (hp : p ≠ [])
    (hne : p ≠ s) (hlen : p.length = s.length) : countOcc p s = 0 := by
  have hppos : 0 < p.length := List.length_pos.mpr hp
  unfold countOcc
  rw [List.countP_eq_zero]
  intro i _
  intro hcon
  rcases Nat.eq_zero_or_pos i with h0 | hpos
  · subst h0
    rw [occursAtB_iff, List.drop_zero] at hcon
    exact hne (hcon.eq_of_length hlen)
  · have := occursAtB_bound hp hcon
    omega

theorem hexRunGo_mono : ∀ (s : List Char) (a b : Nat), a ≤ b →
    hexRunGo s a = true → hexRunGo s b = true := by
  intro s
  induction s with
  | nil => intro a b _ h; simp [hexRunGo] at h
  | cons c cs ih =>
    intro a b hab h
    simp only [hexRunGo] at h ⊢
    by_cases hc : isHexUpper c = true
    · rw [if_pos hc] at h ⊢
      rcases Bool.or_eq_true_iff.mp h with h1 | h1
      · have : 24 ≤ a + 1 := of_decide_eq_true h1
        have : (24 ≤ b + 1) := by omega
        rw [decide_eq_true this]
        simp
      · have := ih (a + 1) (b + 1) (by omega) h1
        rw [this]
        simp
    · rw [if_neg hc] at h ⊢
      exact h

theorem hexRunGo_of_front_run : ∀ (t s : List Char) (cur : Nat), t <+: s →
    (∀ ch ∈ t, isHexUpper ch = true) → 24 ≤ t.length + cur → cur < 24 →
    hexRunGo s cur = true := by
  intro t
  induction t with
  | nil =>
    intro s cur _ _ h24 hcur
    simp at h24
    omega
  | cons c t2 ih =>
    intro s cur hpre hhex h24 hcur
    obtain ⟨r, hr⟩ := hpre
    rw [← hr]
    simp only [List.cons_append, hexRunGo, List.append_eq]
    rw [if_pos (hhex c (List.mem_cons_self c t2))]
    by_cases h1 : 24 ≤ cur + 1
    · rw [decide_eq_true h1]
      simp
    · have ht2 : hexRunGo (t2 ++ r) (cur + 1) = true := by
        apply ih (t2 ++ r) (cur + 1) (List.prefix_append t2 r)
        · intro ch hch
          exact hhex ch (List.mem_cons_of_mem c hch)
        · simp at h24 ⊢
          omega
        · omega
      rw [ht2]
      simp

theorem hasHexRun24_of_occurs {p s : List Char} {i : Nat} (hp24 : p.length = 24)
    (hphex : ∀ ch ∈ p, isHexUpper ch = true) (h : occursAtB p s i = true) :
    hasHexRun24 s = true := by
  rw [occursAtB_iff] at h
  unfold hasHexRun24
  induction s generalizing i with
  | nil =>
    have := h.length_le
    simp at this
    rw [this] at hp24
    simp at hp24
  | cons c cs ih =>
    rcases Nat.eq_zero_or_pos i with h0 | hpos
    · subst h0
      rw [List.drop_zero] at h
      exact hexRunGo_of_front_run p (c :: cs) 0 h hphex (by omega) (by omega)
    · obtain ⟨k, hk⟩ : ∃ k, i = k + 1 := ⟨i - 1, by omega⟩
      subst hk
      have h2 : p <+: cs.drop k := h
      have := ih h2
      simp only [hexRunGo]
      by_cases hc : isHexUpper c = true
      · rw [if_pos hc]
        rw [hexRunGo_mono cs 0 1 (by omega) this]
        simp
      · rw [if_neg hc]
        exact this

theorem countOcc_eq_zero_of_no_run {p s : List Char} (hp24 : p.length = 24)
    (hphex : ∀ ch ∈ p, isHexUpper ch = true) (hs : hasHexRun24 s = false) :
    countOcc p s = 0 := by
  unfold countOcc
  rw [List.countP_eq_zero]
  intro i _ hcon
  rw [hasHexRun24_of_occurs hp24 hphex hcon] at hs
  exact Bool.noConfusion hs

theorem insertAt_sublist (i : Nat) (b s : List Char) : s <+ insertAt i b s := by
  unfold insertAt
  rw [List.append_assoc]
  conv_lhs => rw [← List.take_append_drop i s]
  exact (List.sublist_append_right b (s.drop i)).append_left (s.take i)

theorem insertAt_length (i : Nat) (b s : List Char) :
    (insertAt i b s).length = s.length + b.length := by
  unfold insertAt
  have h := congrArg List.length (List.take_append_drop i s)
  simp only [List.length_append] at h ⊢
  omega

theorem st_inv_insert {c0 : List Char} {p : St} (i : Nat) (b : List Char)
    (h1 : c0 <+ p.1) (h2 : p.1.length = c0.length + (p.2.map List.length).sum) :
    c0 <+ (insertAt i b p.1) ∧
    (insertAt i b p.1).length = c0.length + (((p.2 ++ [b]).map List.length).sum) := by
  refine ⟨h1.trans (insertAt_sublist i b p.1), ?_⟩
  rw [insertAt_length]
  simp only [List.map_append, List.sum_append, List.map_cons, List.map_nil,
    List.sum_cons, List.sum_nil]
  omega

theorem step_file_ref_inv (ids : Ids) {c0 : List Char} {p : St}
    (h1 : c0 <+ p.1) (h2 : p.1.length = c0.length + (p.2.map List.length).sum) :
    c0 <+ (step_file_ref ids p).1 ∧
    (step_file_ref ids p).1.length =
      c0.length + (((step_file_ref ids p).2).map List.length).sum := by
  unfold step_file_ref
  split
  · exact ⟨h1, h2⟩
  · exact st_inv_insert _ _ h1 h2

theorem step_group_inv (ids : Ids) {c0 : List Char} {p : St}
    (h1 : c0 <+ p.1) (h2 : p.1.length = c0.length + (p.2.map List.length).sum) :
    c0 <+ (step_group ids p).1 ∧
    (step_group ids p).1.length =
      c0.length + (((step_group ids p).2).map List.length).sum := by
  unfold step_group
  split
  · exact ⟨h1, h2⟩
  · split
    · split
      · exact ⟨h1, h2⟩
      · exact st_inv_insert _ _ h1 h2
    · rename_i e h3
      have hq := st_inv_insert (p := p) e (test_group_ref ids) h1 h2
      split
      · exact hq
      · rename_i i h4
        exact st_inv_insert (p := (insertAt e (test_group_ref ids) p.1,
          p.2 ++ [test_group_ref ids])) i (test_group_def ids) hq.1 hq.2

theorem step_products_inv (ids : Ids) {c0 : List Char} {p : St}
    (h1 : c0 <+ p.1) (h2 : p.1.length = c0.length + (p.2.map List.length).sum) :
    c0 <+ (step_products ids p).1 ∧
    (step_products ids p).1.length =
      c0.length + (((step_products ids p).2).map List.length).sum := by
  unfold step_products
  split
  · exact ⟨h1, h2⟩
  · exact st_inv_insert _ _ h1 h2

theorem step_sources_inv (ids : Ids) {c0 : List Char} {p : St}
    (h1 : c0 <+ p.1) (h2 : p.1.length = c0.length + (p.2.map List.length).sum) :
    c0 <+ (step_sources ids p).1 ∧
    (step_sources ids p).1.length =
      c0.length + (((step_sources ids p).2).map List.length).sum := by
  unfold step_sources
  split
  · exact ⟨h1, h2⟩
  · exact st_inv_insert _ _ h1 h2

theorem step_frameworks_inv (ids : Ids) {c0 : List Char} {p : St}
    (h1 : c0 <+ p.1) (h2 : p.1.length = c0.length + (p.2.map List.length).sum) :
    c0 <+ (step_frameworks ids p).1 ∧
    (step_frameworks ids p).1.length =
      c0.length + (((step_frameworks ids p).2).map List.length).sum := by
  unfold step_frameworks
  split
  · exact ⟨h1, h2⟩
  · exact st_inv_insert _ _ h1 h2

theorem step_native_target_inv (ids : Ids) {c0 : List Char} {p : St}
    (h1 : c0 <+ p.1) (h2 : p.1.length = c0.length + (p.2.map List.length).sum) :
    c0 <+ (step_native_target ids p).1 ∧
    (step_native_target ids p).1.length =
      c0.length + (((step_native_target ids p).2).map List.length).sum := by
  unfold step_native_target
  split
  · exact ⟨h1, h2⟩
  · exact st_inv_insert _ _ h1 h2

theorem step_targets_list_inv (ids : Ids) {c0 : List Char} {p : St}
    (h1 : c0 <+ p.1) (h2 : p.1.length = c0.length + (p.2.map List.length).sum) :
    c0 <+ (step_targets_list ids p).1 ∧
    (step_targets_list ids p).1.length =
      c0.length + (((step_targets_list ids p).2).map List.length).sum := by
  unfold step_targets_list
  split
  · exact ⟨h1, h2⟩
  · exact st_inv_insert _ _ h1 h2

theorem step_configs_inv (ids : Ids) {c0 : List Char} {p : St}
    (h1 : c0 <+ p.1) (h2 : p.1.length = c0.length + (p.2.map List.length).sum) :
    c0 <+ (step_configs ids p).1 ∧
    (step_configs ids p).1.length =
      c0.length + (((step_configs ids p).2).map List.length).sum := by
  unfold step_configs
  split
  · exact ⟨h1, h2⟩
  · exact st_inv_insert _ _ h1 h2

theorem step_target_attrs_inv (ids : Ids) {c0 : List Char} {p : St}
    (h1 : c0 <+ p.1) (h2 : p.1.length = c0.length + (p.2.map List.length).sum) :
    c0 <+ (step_target_attrs ids p).1 ∧
    (step_target_attrs ids p).1.length =
      c0.length + (((step_target_attrs ids p).2).map List.length).sum := by
  unfold step_target_attrs
  split
  · exact ⟨h1, h2⟩
  · exact st_inv_insert _ _ h1 h2

theorem run_edits_inv (ids : Ids) (c : List Char) :
    c <+ (run_edits ids (c, [])).1 ∧
    (run_edits ids (c, [])).1.length =
      c.length + (((run_edits ids (c, [])).2).map List.length).sum := by
  have h0 : c <+ ((c, ([] : List (List Char))) : St).1 ∧
      ((c, ([] : List (List Char))) : St).1.length =
      c.length + ((([] : List (List Char)).map List.length).sum) := by
    exact ⟨List.Sublist.refl c, by simp⟩
  have h1 := step_file_ref_inv ids h0.1 h0.2
  have h2 := step_group_inv ids h1.1 h1.2
  have h3 := step_products_inv ids h2.1 h2.2
  have h4 := step_sources_inv ids h3.1 h3.2
  have h5 := step_frameworks_inv ids h4.1 h4.2
  have h6 := step_native_target_inv ids h5.1 h5.2
  have h7 := step_targets_list_inv ids h6.1 h6.2
  have h8 := step_configs_inv ids h7.1 h7.2
  exact step_target_attrs_inv ids h8.1 h8.2

theorem dep_ne_nil {q : List Char} (h : q.length = 24) : q ≠ [] := by
  intro hn
  rw [hn] at h
  simp at h

theorem findOcc_some {p s : List Char} {i : Nat} (h : findOcc p s = some i) :
    occursAtB p s i = true :=
  List.find?_some h

theorem searchBC_some {t s : List Char} {e : Nat} (h : searchBC t s = some e) :
    ∃ m, occursAtB children_pat s m = true ∧ e = m + children_pat.length := by
  unfold searchBC at h
  obtain ⟨i, hi, hb⟩ := Option.bind_eq_some.mp h
  unfold bcEnd at hb
  obtain ⟨k, hk, he⟩ := Option.map_eq_some'.mp hb
  have hocc := List.find?_some hk
  exact ⟨i + t.length + k + 1, hocc, by omega⟩

theorem test_file_ref_hd (ids : Ids) : (test_file_ref ids).head? = some '\t' := rfl

theorem test_file_ref_lst (ids : Ids) : (test_file_ref ids).getLast? = some '\n' :=
  getLast?_append_some (by decide)

theorem test_group_ref_hd (ids : Ids) : (test_group_ref ids).head? = some '\t' := rfl

theorem test_group_ref_lst (ids : Ids) : (test_group_ref ids).getLast? = some '\n' :=
  getLast?_append_some (by decide)

theorem test_group_def_hd (ids : Ids) : (test_group_def ids).head? = some '\t' := rfl

theorem test_group_def_lst (ids : Ids) : (test_group_def ids).getLast? = some '\n' :=
  getLast?_append_some (by decide)

theorem test_product_ref_hd (ids : Ids) : (test_product_ref ids).head? = some '\t' := rfl

theorem test_product_ref_lst (ids : Ids) : (test_product_ref ids).getLast? = some '\n' :=
  getLast?_append_some (by decide)

theorem test_sources_phase_hd (ids : Ids) : (test_sources_phase ids).head? = some '\t' := rfl

theorem test_sources_phase_lst (ids : Ids) : (test_sources_phase ids).getLast? = some '\n' :=
  getLast?_append_some (by decide)

theorem test_frameworks_phase_hd (ids : Ids) : (test_frameworks_phase ids).head? = some '\t' := rfl

theorem test_frameworks_phase_lst (ids : Ids) : (test_frameworks_phase ids).getLast? = some '\n' :=
  getLast?_append_some (by decide)

theorem test_target_ref_hd (ids : Ids) : (test_target_ref ids).head? = some '\t' := rfl

theorem test_target_ref_lst (ids : Ids) : (test_target_ref ids).getLast? = some '\n' :=
  getLast?_append_some (by decide)

theorem test_target_hd (ids : Ids) : (test_target ids).head? = some '\t' := rfl

theorem test_target_lst (ids : Ids) : (test_target ids).getLast? = some '\n' :=
  getLast?_append_some (by decide)

theorem test_debug_config_hd (ids : Ids) : (test_debug_config ids).head? = some '\t' := rfl

theorem test_debug_config_lst (ids : Ids) : (test_debug_config ids).getLast? = some '\n' :=
  getLast?_append_some (by decide)

theorem test_target_attrs_hd (ids : Ids) : (test_target_attrs ids).head? = some '\t' := rfl

theorem test_target_attrs_lst (ids : Ids) : (test_target_attrs ids).getLast? = some '\n' :=
  getLast?_append_some (by decide)

theorem count_test_file_ref {q : List Char} (ids : Ids) (h24 : q.length = 24)
    (hhex : ∀ ch ∈ q, isHexUpper ch = true)
    (hl : ids.test_product_id.length = 24) (hn : q ≠ ids.test_product_id) :
    countOcc q (test_file_ref ids) = 0 := by
  have hq := dep_ne_nil h24
  unfold test_file_ref
  rw [countOcc_append_of_head hq hhex]
  rw [countOcc_append_of_last hq hhex]
  rw [countOcc_eq_zero_of_no_run h24 hhex]
  rw [countOcc_eq_zero_of_ne hq hn (by rw [h24, hl])]
  rw [countOcc_eq_zero_of_no_run h24 hhex]
  all_goals try (exact getLast?_append_some (by rfl))
  all_goals try rfl
  all_goals decide

theorem count_test_group_ref {q : List Char} (ids : Ids) (h24 : q.length = 24)
    (hhex : ∀ ch ∈ q, isHexUpper ch = true)
    (hl : ids.test_group_id.length = 24) (hn : q ≠ ids.test_group_id) :
    countOcc q (test_group_ref ids) = 0 := by
  have hq := dep_ne_nil h24
  unfold test_group_ref
  rw [countOcc_append_of_head hq hhex]
  rw [countOcc_append_of_last hq hhex]
  rw [countOcc_eq_zero_of_no_run h24 hhex]
  rw [countOcc_eq_zero_of_ne hq hn (by rw [h24, hl])]
  rw [countOcc_eq_zero_of_no_run h24 hhex]
  all_goals try (exact getLast?_append_some (by rfl))
  all_goals try rfl
  all_goals decide

theorem count_test_group_def {q : List Char} (ids : Ids) (h24 : q.length = 24)
    (hhex : ∀ ch ∈ q, isHexUpper ch = true)
    (hl : ids.test_group_id.length = 24) (hn : q ≠ ids.test_group_id) :
    countOcc q (test_group_def ids) = 0 := by
  have hq := dep_ne_nil h24
  unfold test_group_def
  rw [countOcc_append_of_head hq hhex]
  rw [countOcc_append_of_last hq hhex]
  rw [countOcc_eq_zero_of_no_run h24 hhex]
  rw [countOcc_eq_zero_of_ne hq hn (by rw [h24, hl])]
  rw [countOcc_eq_zero_of_no_run h24 hhex]
  all_goals try (exact getLast?_append_some (by rfl))
  all_goals try rfl
  all_goals decide

theorem count_test_product_ref {q : List Char} (ids : Ids) (h24 : q.length = 24)
    (hhex : ∀ ch ∈ q, isHexUpper ch = true)
    (hl : ids.test_product_id.length = 24) (hn : q ≠ ids.test_product_id) :
    countOcc q (test_product_ref ids) = 0 := by
  have hq := dep_ne_nil h24
  unfold test_product_ref
  rw [countOcc_append_of_head hq hhex]
  rw [countOcc_append_of_last hq hhex]
  rw [countOcc_eq_zero_of_no_run h24 hhex]
  rw [countOcc_eq_zero_of_ne hq hn (by rw [h24, hl])]
  rw [countOcc_eq_zero_of_no_run h24 hhex]
  all_goals try (exact getLast?_append_some (by rfl))
  all_goals try rfl
  all_goals decide

theorem count_test_sources_phase {q : List Char} (ids : Ids) (h24 : q.length = 24)
    (hhex : ∀ ch ∈ q, isHexUpper ch = true)
    (hl : ids.test_sources_phase_id.length = 24) (hn : q ≠ ids.test_sources_phase_id) :
    countOcc q (test_sources_phase ids) = 0 := by
  have hq := dep_ne_nil h24
  unfold test_sources_phase
  rw [countOcc_append_of_head hq hhex]
  rw [countOcc_append_of_last hq hhex]
  rw [countOcc_eq_zero_of_no_run h24 hhex]
  rw [countOcc_eq_zero_of_ne hq hn (by rw [h24, hl])]
  rw [countOcc_eq_zero_of_no_run h24 hhex]
  all_goals try (exact getLast?_append_some (by rfl))
  all_goals try rfl
  all_goals decide

theorem count_test_frameworks_phase {q : List Char} (ids : Ids) (h24 : q.length = 24)
    (hhex : ∀ ch ∈ q, isHexUpper ch = true)
    (hl : ids.test_frameworks_phase_id.length = 24) (hn : q ≠ ids.test_frameworks_phase_id) :
    countOcc q (test_frameworks_phase ids) = 0 := by
  have hq := dep_ne_nil h24
  unfold test_frameworks_phase
  rw [countOcc_append_of_head hq hhex]
  rw [countOcc_append_of_last hq hhex]
  rw [countOcc_eq_zero_of_no_run h24 hhex]
  rw [countOcc_eq_zero_of_ne hq hn (by rw [h24, hl])]
  rw [countOcc_eq_zero_of_no_run h24 hhex]
  all_goals try (exact getLast?_append_some (by rfl))
  all_goals try rfl
  all_goals decide

theorem count_test_target_ref {q : List Char} (ids : Ids) (h24 : q.length = 24)
    (hhex : ∀ ch ∈ q, isHexUpper ch = true)
    (hl : ids.test_target_id.length = 24) (hn : q ≠ ids.test_target_id) :
    countOcc q (test_target_ref ids) = 0 := by
  have hq := dep_ne_nil h24
  unfold test_target_ref
  rw [countOcc_append_of_head hq hhex]
  rw [countOcc_append_of_last hq hhex]
  rw [countOcc_eq_zero_of_no_run h24 hhex]
  rw [countOcc_eq_zero_of_ne hq hn (by rw [h24, hl])]
  rw [countOcc_eq_zero_of_no_run h24 hhex]
  all_goals try (exact getLast?_append_some (by rfl))
  all_goals try rfl
  all_goals decide

theorem count_test_target (ids : Ids) (h24 : ids.dep_id.length = 24)
    (hhex : ∀ ch ∈ ids.dep_id, isHexUpper ch = true)
    (hl1 : ids.test_target_id.length = 24) (hn1 : ids.dep_id ≠ ids.test_target_id)
    (hl2 : ids.test_build_config_list_id.length = 24)
    (hn2 : ids.dep_id ≠ ids.test_build_config_list_id)
    (hl3 : ids.test_sources_phase_id.length = 24)
    (hn3 : ids.dep_id ≠ ids.test_sources_phase_id)
    (hl4 : ids.test_frameworks_phase_id.length = 24)
    (hn4 : ids.dep_id ≠ ids.test_frameworks_phase_id)
    (hl5 : ids.test_product_id.length = 24) (hn5 : ids.dep_id ≠ ids.test_product_id) :
    countOcc ids.dep_id (test_target ids) = 1 := by
  have hq := dep_ne_nil h24
  unfold test_target
  rw [countOcc_append_of_head hq hhex]
  rw [countOcc_append_of_last hq hhex]
  rw [countOcc_append_of_head hq hhex]
  rw [countOcc_append_of_last hq hhex]
  rw [countOcc_append_of_head hq hhex]
  rw [countOcc_append_of_last hq hhex]
  rw [countOcc_append_of_head hq hhex]
  rw [countOcc_append_of_last hq hhex]
  rw [countOcc_append_of_head hq hhex]
  rw [countOcc_append_of_last hq hhex]
  rw [countOcc_append_of_head hq hhex]
  rw [countOcc_append_of_last hq hhex]
  rw [countOcc_eq_zero_of_no_run h24 hhex]
  rw [countOcc_eq_zero_of_ne hq hn1 (by rw [h24, hl1])]
  rw [countOcc_eq_zero_of_no_run h24 hhex]
  rw [countOcc_eq_zero_of_ne hq hn2 (by rw [h24, hl2])]
  rw [countOcc_eq_zero_of_no_run h24 hhex]
  rw [countOcc_eq_zero_of_ne hq hn3 (by rw [h24, hl3])]
  rw [countOcc_eq_zero_of_no_run h24 hhex]
  rw [countOcc_eq_zero_of_ne hq hn4 (by rw [h24, hl4])]
  rw [countOcc_eq_zero_of_no_run h24 hhex]
  rw [countOcc_self hq]
  rw [countOcc_eq_zero_of_no_run h24 hhex]
  rw [countOcc_eq_zero_of_ne hq hn5 (by rw [h24, hl5])]
  rw [countOcc_eq_zero_of_no_run h24 hhex]
  all_goals try (exact getLast?_append_some (by rfl))
  all_goals try rfl
  all_goals decide

theorem count_test_debug_config {q : List Char} (ids : Ids) (h24 : q.length = 24)
    (hhex : ∀ ch ∈ q, isHexUpper ch = true)
    (hl1 : ids.test_debug_config_id.length = 24) (hn1 : q ≠ ids.test_debug_config_id)
    (hl2 : ids.test_release_config_id.length = 24) (hn2 : q ≠ ids.test_release_config_id)
    (hl3 : ids.test_build_config_list_id.length = 24)
    (hn3 : q ≠ ids.test_build_config_list_id) :
    countOcc q (test_debug_config ids) = 0 := by
  have hq := dep_ne_nil h24
  unfold test_debug_config
  rw [countOcc_append_of_head hq hhex]
  rw [countOcc_append_of_last hq hhex]
  rw [countOcc_append_of_head hq hhex]
  rw [countOcc_append_of_last hq hhex]
  rw [countOcc_append_of_head hq hhex]
  rw [countOcc_append_of_last hq hhex]
  rw [countOcc_append_of_head hq hhex]
  rw [countOcc_append_of_last hq hhex]
  rw [countOcc_append_of_head hq hhex]
  rw [countOcc_append_of_last hq hhex]
  rw [countOcc_eq_zero_of_no_run h24 hhex]
  rw [countOcc_eq_zero_of_ne hq hn1 (by rw [h24, hl1])]
  rw [countOcc_eq_zero_of_no_run h24 hhex]
  rw [countOcc_eq_zero_of_ne hq hn2 (by rw [h24, hl2])]
  rw [countOcc_eq_zero_of_no_run h24 hhex]
  rw [countOcc_eq_zero_of_ne hq hn3 (by rw [h24, hl3])]
  rw [countOcc_eq_zero_of_no_run h24 hhex]
  rw [countOcc_eq_zero_of_no_run h24 hhex]
  rw [countOcc_eq_zero_of_no_run h24 hhex]
  all_goals try (exact getLast?_append_some (by rfl))
  all_goals try rfl
  all_goals decide

theorem count_test_target_attrs {q : List Char} (ids : Ids) (h24 : q.length = 24)
    (hhex : ∀ ch ∈ q, isHexUpper ch = true)
    (hl : ids.test_target_id.length = 24) (hn : q ≠ ids.test_target_id)
    (hm : q ≠ ofStr "5224F5F42EED89A600A4DEB4") :
    countOcc q (test_target_attrs ids) = 0 := by
  have hq := dep_ne_nil h24
  unfold test_target_attrs
  rw [show ofStr " = \x7b\n\t\t\t\t\tCreatedOnToolsVersion = 26.1.1;\n\t\t\t\t\tTestTargetID = 5224F5F42EED89A600A4DEB4;\n\t\t\t\t\x7d;\n" =
    (ofStr " = \x7b\n\t\t\t\t\tCreatedOnToolsVersion = 26.1.1;\n\t\t\t\t\tTestTargetID = " ++
      ofStr "5224F5F42EED89A600A4DEB4") ++ ofStr ";\n\t\t\t\t\x7d;\n" from by decide]
  rw [countOcc_append_of_head hq hhex]
  rw [countOcc_append_of_last hq hhex]
  rw [countOcc_append_of_head hq hhex]
  rw [countOcc_append_of_last hq hhex]
  rw [countOcc_eq_zero_of_no_run h24 hhex]
  rw [countOcc_eq_zero_of_ne hq hn (by rw [h24, hl])]
  rw [countOcc_eq_zero_of_no_run h24 hhex]
  rw [countOcc_eq_zero_of_ne hq hm (by rw [h24]; rfl)]
  rw [countOcc_eq_zero_of_no_run h24 hhex]
  all_goals try (exact getLast?_append_some (by rfl))
  all_goals try rfl
  all_goals decide

theorem count_step_file_ref (ids : Ids) (p : St) (h24 : ids.dep_id.length = 24)
    (hhex : ∀ ch ∈ ids.dep_id, isHexUpper ch = true)
    (hb : countOcc ids.dep_id (test_file_ref ids) = 0) :
    countOcc ids.dep_id (step_file_ref ids p).1 = countOcc ids.dep_id p.1 := by
  have hq := dep_ne_nil h24
  unfold step_file_ref
  split
  · rfl
  · rename_i i hf
    dsimp only
    rw [countOcc_insertAt_end_anchor hq hhex (by decide) (findOcc_some hf)
        ⟨'/', by decide, by decide⟩ ⟨'\t', test_file_ref_hd ids, by decide⟩
        ⟨'\n', test_file_ref_lst ids, by decide⟩, hb, Nat.add_zero]

theorem count_step_targets_list (ids : Ids) (p : St) (h24 : ids.dep_id.length = 24)
    (hhex : ∀ ch ∈ ids.dep_id, isHexUpper ch = true)
    (hb : countOcc ids.dep_id (test_target_ref ids) = 0) :
    countOcc ids.dep_id (step_targets_list ids p).1 = countOcc ids.dep_id p.1 := by
  have hq := dep_ne_nil h24
  unfold step_targets_list
  split
  · rfl
  · rename_i i hf
    dsimp only
    rw [countOcc_insertAt_end_anchor hq hhex (by decide) (findOcc_some hf)
        ⟨'(', by decide, by decide⟩ ⟨'\t', test_target_ref_hd ids, by decide⟩
        ⟨'\n', test_target_ref_lst ids, by decide⟩, hb, Nat.add_zero]

theorem count_step_target_attrs (ids : Ids) (p : St) (h24 : ids.dep_id.length = 24)
    (hhex : ∀ ch ∈ ids.dep_id, isHexUpper ch = true)
    (hb : countOcc ids.dep_id (test_target_attrs ids) = 0) :
    countOcc ids.dep_id (step_target_attrs ids p).1 = countOcc ids.dep_id p.1 := by
  have hq := dep_ne_nil h24
  unfold step_target_attrs
  split
  · rfl
  · rename_i i hf
    dsimp only
    rw [countOcc_insertAt_end_anchor hq hhex (by decide) (findOcc_some hf)
        ⟨'\x7b', by decide, by decide⟩ ⟨'\t', test_target_attrs_hd ids, by decide⟩
        ⟨'\n', test_target_attrs_lst ids, by decide⟩, hb, Nat.add_zero]

theorem count_step_sources (ids : Ids) (p : St) (h24 : ids.dep_id.length = 24)
    (hhex : ∀ ch ∈ ids.dep_id, isHexUpper ch = true)
    (hb : countOcc ids.dep_id (test_sources_phase ids) = 0) :
    countOcc ids.dep_id (step_sources ids p).1 = countOcc ids.dep_id p.1 := by
  have hq := dep_ne_nil h24
  unfold step_sources
  split
  · rfl
  · rename_i i hf
    dsimp only
    rw [countOcc_insertAt_start_anchor hq hhex (by decide) (findOcc_some hf)
        ⟨'/', by decide, by decide⟩ ⟨'\t', test_sources_phase_hd ids, by decide⟩
        ⟨'\n', test_sources_phase_lst ids, by decide⟩, hb, Nat.add_zero]

theorem count_step_frameworks (ids : Ids) (p : St) (h24 : ids.dep_id.length = 24)
    (hhex : ∀ ch ∈ ids.dep_id, isHexUpper ch = true)
    (hb : countOcc ids.dep_id (test_frameworks_phase ids) = 0) :
    countOcc ids.dep_id (step_frameworks ids p).1 = countOcc ids.dep_id p.1 := by
  have hq := dep_ne_nil h24
  unfold step_frameworks
  split
  · rfl
  · rename_i i hf
    dsimp only
    rw [countOcc_insertAt_start_anchor hq hhex (by decide) (findOcc_some hf)
        ⟨'/', by decide, by decide⟩ ⟨'\t', test_frameworks_phase_hd ids, by decide⟩
        ⟨'\n', test_frameworks_phase_lst ids, by decide⟩, hb, Nat.add_zero]

theorem count_step_configs (ids : Ids) (p : St) (h24 : ids.dep_id.length = 24)
    (hhex : ∀ ch ∈ ids.dep_id, isHexUpper ch = true)
    (hb : countOcc ids.dep_id (test_debug_config ids) = 0) :
    countOcc ids.dep_id (step_configs ids p).1 = countOcc ids.dep_id p.1 := by
  have hq := dep_ne_nil h24
  unfold step_configs
  split
  · rfl
  · rename_i i hf
    dsimp only
    rw [countOcc_insertAt_start_anchor hq hhex (by decide) (findOcc_some hf)
        ⟨'/', by decide, by decide⟩ ⟨'\t', test_debug_config_hd ids, by decide⟩
        ⟨'\n', test_debug_config_lst ids, by decide⟩, hb, Nat.add_zero]

theorem count_step_native_target (ids : Ids) (p : St) (h24 : ids.dep_id.length = 24)
    (hhex : ∀ ch ∈ ids.dep_id, isHexUpper ch = true)
    (hfound : (findOcc native_end_pat p.1).isSome = true)
    (hb : countOcc ids.dep_id (test_target ids) = 1) :
    countOcc ids.dep_id (step_native_target ids p).1 = countOcc ids.dep_id p.1 + 1 := by
  have hq := dep_ne_nil h24
  unfold step_native_target
  split
  · rename_i hf
    rw [hf] at hfound
    simp at hfound
  · rename_i i hf
    dsimp only
    rw [countOcc_insertAt_start_anchor hq hhex (by decide) (findOcc_some hf)
        ⟨'/', by decide, by decide⟩ ⟨'\t', test_target_hd ids, by decide⟩
        ⟨'\n', test_target_lst ids, by decide⟩, hb, Nat.add_zero]

theorem count_step_products (ids : Ids) (p : St) (h24 : ids.dep_id.length = 24)
    (hhex : ∀ ch ∈ ids.dep_id, isHexUpper ch = true)
    (hb : countOcc ids.dep_id (test_product_ref ids) = 0) :
    countOcc ids.dep_id (step_products ids p).1 = countOcc ids.dep_id p.1 := by
  have hq := dep_ne_nil h24
  unfold step_products
  split
  · rfl
  · rename_i e he
    obtain ⟨mm, hmm, heq⟩ := searchBC_some he
    dsimp only
    rw [heq, countOcc_insertAt_end_anchor hq hhex (by decide) hmm
        ⟨'(', by decide, by decide⟩ ⟨'\t', test_product_ref_hd ids, by decide⟩
        ⟨'\n', test_product_ref_lst ids, by decide⟩, hb, Nat.add_zero]

theorem count_step_group (ids : Ids) (p : St) (h24 : ids.dep_id.length = 24)
    (hhex : ∀ ch ∈ ids.dep_id, isHexUpper ch = true)
    (hb1 : countOcc ids.dep_id (test_group_ref ids) = 0)
    (hb2 : countOcc ids.dep_id (test_group_def ids) = 0) :
    countOcc ids.dep_id (step_group ids p).1 = countOcc ids.dep_id p.1 := by
  have hq := dep_ne_nil h24
  unfold step_group
  split
  · rfl
  · split
    · split
      · rfl
      · rename_i i hf
        dsimp only
        rw [countOcc_insertAt_start_anchor hq hhex (by decide) (findOcc_some hf)
            ⟨'/', by decide, by decide⟩ ⟨'\t', test_group_def_hd ids, by decide⟩
            ⟨'\n', test_group_def_lst ids, by decide⟩, hb2, Nat.add_zero]
    · rename_i e he
      obtain ⟨mm, hmm, heq⟩ := searchBC_some he
      have hstep1 : countOcc ids.dep_id (insertAt e (test_group_ref ids) p.1) =
          countOcc ids.dep_id p.1 := by
        rw [heq, countOcc_insertAt_end_anchor hq hhex (by decide) hmm
            ⟨'(', by decide, by decide⟩ ⟨'\t', test_group_ref_hd ids, by decide⟩
            ⟨'\n', test_group_ref_lst ids, by decide⟩, hb1, Nat.add_zero]
      split
      · dsimp only
        exact hstep1
      · rename_i i hf2
        dsimp only
        rw [countOcc_insertAt_start_anchor hq hhex (by decide) (findOcc_some hf2)
            ⟨'/', by decide, by decide⟩ ⟨'\t', test_group_def_hd ids, by decide⟩
            ⟨'\n', test_group_def_lst ids, by decide⟩, hb2, Nat.add_zero, hstep1]

theorem add_test_target_eq_some (ids : Ids) (content : List Char) (m : Nat)
    (hm : findOcc main_target_pat content = some m) :
    add_test_target ids content = some ((run_edits ids (content, [])).1) := by
  unfold add_test_target
  rw [hm]

theorem add_test_target_eq_none (ids : Ids) (content : List Char)
    (hm : findOcc main_target_pat content = none) :
    add_test_target ids content = none := by
  unfold add_test_target
  rw [hm]

/-- C1: if the main-target anchor pattern does not occur in the project file
content, add_test_target prints an error, returns False and does not write
the file (modelled by returning none), so the content is left unchanged:
the abort happens before any modification. -/
theorem c1_missing_main_anchor_aborts (ids : Ids) (content : List Char)
    (h : findOcc main_target_pat content = none) :
    add_test_target ids content = none := by
  unfold add_test_target
  rw [h]

/-- Witness for C1 at a concrete content without the anchor. -/
theorem c1_missing_main_anchor_aborts_witness :
    findOcc main_target_pat (ofStr "no anchor here") = none ∧
    add_test_target wids (ofStr "no anchor here") = none :=
  ⟨by decide, c1_missing_main_anchor_aborts wids (ofStr "no anchor here") (by decide)⟩

/-- C2: add_test_target is insertion-only: whenever it writes a result, the
original content is a subsequence of it (all original characters survive in
their original order), and the output length is the input length plus the
total length of the blocks actually spliced in. -/
theorem c2_insertion_only (ids : Ids) (content out : List Char)
    (h : add_test_target ids content = some out) :
    content <+ out ∧
    out.length = content.length + ((inserted_blocks ids content).map List.length).sum := by
  cases hf : findOcc main_target_pat content with
  | none =>
    rw [add_test_target_eq_none ids content hf] at h
    exact Option.noConfusion h
  | some m =>
    rw [add_test_target_eq_some ids content m hf] at h
    have hout : (run_edits ids (content, [])).1 = out := Option.some.inj h
    rw [← hout]
    exact ⟨(run_edits_inv ids content).1, (run_edits_inv ids content).2⟩

/-- Witness for C2 at a concrete content: the main anchor alone. -/
theorem c2_insertion_only_witness :
    main_target_pat <+ (run_edits wids (main_target_pat, [])).1 ∧
    (run_edits wids (main_target_pat, [])).1.length =
      main_target_pat.length + ((inserted_blocks wids main_target_pat).map List.length).sum :=
  c2_insertion_only wids main_target_pat ((run_edits wids (main_target_pat, [])).1)
    (add_test_target_eq_some wids main_target_pat 0 (by decide))

/-- C3: when the main-target anchor is present, add_test_target always writes
the file back and returns True, whatever secondary anchor patterns are
missing: a missing secondary anchor only skips its insertion silently and
never causes an abort. -/
theorem c3_secondary_anchors_never_abort (ids : Ids) (content : List Char)
    (h : (findOcc main_target_pat content).isSome = true) :
    (add_test_target ids content).isSome = true := by
  obtain ⟨m, hm⟩ := Option.isSome_iff_exists.mp h
  rw [add_test_target_eq_some ids content m hm]
  rfl

/-- Witness for C3 at a concrete content that contains the main anchor but
none of the secondary anchors: the run still succeeds. -/
theorem c3_secondary_anchors_never_abort_witness :
    (add_test_target wids main_target_pat).isSome = true :=
  c3_secondary_anchors_never_abort wids main_target_pat (by decide)

/-- C8: the script entry point prints the success message and exits with
status 0 exactly when add_test_target returns True, and prints the failure
message and exits with status 1 exactly when it returns False; there is no
other failure handling in the entry point. -/
theorem c8_exit_behavior (ids : Ids) (content : List Char) :
    ((add_test_target ids content).isSome = true →
      main_exit ids content = ("Successfully added test target", 0)) ∧
    ((add_test_target ids content).isSome = false →
      main_exit ids content = ("Failed to add test target", 1)) := by
  constructor
  · intro h
    cases ho : add_test_target ids content with
    | none => rw [ho] at h; simp at h
    | some o => unfold main_exit; rw [ho]
  · intro h
    cases ho : add_test_target ids content with
    | none => unfold main_exit; rw [ho]
    | some o => rw [ho] at h; simp at h

/-- Witness for C8: one succeeding run and one failing run. -/
theorem c8_exit_behavior_witness :
    main_exit wids main_target_pat = ("Successfully added test target", 0) ∧
    main_exit wids (ofStr "nope") = ("Failed to add test target", 1) :=
  ⟨(c8_exit_behavior wids main_target_pat).1
     (by rw [add_test_target_eq_some wids main_target_pat 0 (by decide)]
         rfl),
   (c8_exit_behavior wids (ofStr "nope")).2
     (by rw [add_test_target_eq_none wids (ofStr "nope") (by decide)]
         rfl)⟩

/-- C4: when the Begin PBXFileReference marker occurs in the content (and the
main anchor is present so the function runs), add_test_target splices the
single PBXFileReference line for PaykitDemoTests.xctest, tagged with the
generated product id with explicitFileType wrapper.cfbundle and sourceTree
BUILT_PRODUCTS_DIR, immediately after the end of the first occurrence of the
marker, and then performs the remaining edits on that result. -/
theorem c4_file_reference_insertion (ids : Ids) (content : List Char) (m i : Nat)
    (hmain : findOcc main_target_pat content = some m)
    (hfind : findOcc file_ref_begin_pat content = some i) :
    add_test_target ids content =
      some ((edits_after_file_ref ids
        (insertAt (i + file_ref_begin_pat.length) (test_file_ref ids) content,
          [test_file_ref ids])).1) ∧
    test_file_ref ids =
      ofStr "\t\t" ++
      ids.test_product_id ++
      ofStr " /* PaykitDemoTests.xctest */ = \x7bisa = PBXFileReference; explicitFileType = wrapper.cfbundle; includeInIndex = 0; path = PaykitDemoTests.xctest; sourceTree = BUILT_PRODUCTS_DIR; \x7d;\n" := by
  constructor
  · rw [add_test_target_eq_some ids content m hmain]
    show some ((edits_after_file_ref ids (step_file_ref ids (content, []))).1) = _
    have hstep : step_file_ref ids (content, []) =
        (insertAt (i + file_ref_begin_pat.length) (test_file_ref ids) content,
          [test_file_ref ids]) := by
      unfold step_file_ref
      dsimp only
      rw [hfind]
      rfl
    rw [hstep]

  · rfl

/-- Witness for C4 at a concrete content: the main anchor, a newline, then
the Begin PBXFileReference marker (which starts at position 42). -/
theorem c4_file_reference_insertion_witness :
    add_test_target wids (main_target_pat ++ ofStr "\n" ++ file_ref_begin_pat) =
      some ((edits_after_file_ref wids
        (insertAt (42 + file_ref_begin_pat.length) (test_file_ref wids)
          (main_target_pat ++ ofStr "\n" ++ file_ref_begin_pat),
          [test_file_ref wids])).1) ∧
    test_file_ref wids =
      ofStr "\t\t" ++
      wids.test_product_id ++
      ofStr " /* PaykitDemoTests.xctest */ = \x7bisa = PBXFileReference; explicitFileType = wrapper.cfbundle; includeInIndex = 0; path = PaykitDemoTests.xctest; sourceTree = BUILT_PRODUCTS_DIR; \x7d;\n" :=
  c4_file_reference_insertion wids (main_target_pat ++ ofStr "\n" ++ file_ref_begin_pat)
    0 42 (by decide) (by decide)

/-- C5: when the End PBXSourcesBuildPhase and End PBXFrameworksBuildPhase
markers are present in the content reaching the respective edit,
add_test_target inserts a new PBXSourcesBuildPhase block immediately before
the first occurrence of the former and a new PBXFrameworksBuildPhase block
immediately before the first occurrence of the latter, each block with an
empty files list and a freshly generated id, as the block texts spell out. -/
theorem c5_build_phase_insertions (ids : Ids) :
    (∀ p : St, ∀ i : Nat, findOcc sources_end_pat p.1 = some i →
      step_sources ids p =
        (insertAt i (test_sources_phase ids) p.1, p.2 ++ [test_sources_phase ids])) ∧
    (∀ p : St, ∀ j : Nat, findOcc frameworks_end_pat p.1 = some j →
      step_frameworks ids p =
        (insertAt j (test_frameworks_phase ids) p.1, p.2 ++ [test_frameworks_phase ids])) ∧
    test_sources_phase ids =
      ofStr "\t\t" ++
      ids.test_sources_phase_id ++
      ofStr " /* Sources */ = \x7b\n\t\t\tisa = PBXSourcesBuildPhase;\n\t\t\tbuildActionMask = 2147483647;\n\t\t\tfiles = (\n\t\t\t);\n\t\t\trunOnlyForDeploymentPostprocessing = 0;\n\t\t\x7d;\n" ∧
    test_frameworks_phase ids =
      ofStr "\t\t" ++
      ids.test_frameworks_phase_id ++
      ofStr " /* Frameworks */ = \x7b\n\t\t\tisa = PBXFrameworksBuildPhase;\n\t\t\tbuildActionMask = 2147483647;\n\t\t\tfiles = (\n\t\t\t);\n\t\t\trunOnlyForDeploymentPostprocessing = 0;\n\t\t\x7d;\n" := by
  refine ⟨?_, ?_, rfl, rfl⟩
  · intro p i h
    unfold step_sources
    rw [h]
  · intro p j h
    unfold step_frameworks
    rw [h]

/-- Witness for C5 at contents equal to the two markers themselves (both
insertions land at position 0). -/
theorem c5_build_phase_insertions_witness :
    step_sources wids (sources_end_pat, []) =
      (insertAt 0 (test_sources_phase wids) sources_end_pat, [test_sources_phase wids]) ∧
    step_frameworks wids (frameworks_end_pat, []) =
      (insertAt 0 (test_frameworks_phase wids) frameworks_end_pat, [test_frameworks_phase wids]) :=
  ⟨(c5_build_phase_insertions wids).1 (sources_end_pat, []) 0 (by decide),
   (c5_build_phase_insertions wids).2.1 (frameworks_end_pat, []) 0 (by decide)⟩

/-- C6: when the End PBXNativeTarget marker is present in the content
reaching that edit, add_test_target inserts the PBXNativeTarget block for
PaykitDemoTests immediately before the first occurrence of the marker; its
buildConfigurationList is the generated configuration-list id, its
buildPhases list exactly the generated Sources and Frameworks phase ids in
that order, and its productReference is the generated product id, as the
block text spells out. -/
theorem c6_native_target_insertion (ids : Ids) :
    (∀ p : St, ∀ i : Nat, findOcc native_end_pat p.1 = some i →
      step_native_target ids p =
        (insertAt i (test_target ids) p.1, p.2 ++ [test_target ids])) ∧
    test_target ids =
      ofStr "\t\t" ++
      ids.test_target_id ++
      ofStr " /* PaykitDemoTests */ = \x7b\n\t\t\tisa = PBXNativeTarget;\n\t\t\tbuildConfigurationList = " ++
      ids.test_build_config_list_id ++
      ofStr " /* Build configuration list for PBXNativeTarget \"PaykitDemoTests\" */;\n\t\t\tbuildPhases = (\n\t\t\t\t" ++
      ids.test_sources_phase_id ++
      ofStr " /* Sources */,\n\t\t\t\t" ++
      ids.test_frameworks_phase_id ++
      ofStr " /* Frameworks */,\n\t\t\t);\n\t\t\tbuildRules = (\n\t\t\t);\n\t\t\tdependencies = (\n\t\t\t\t" ++
      ids.dep_id ++
      ofStr " /* PBXTargetDependency */,\n\t\t\t);\n\t\t\tname = PaykitDemoTests;\n\t\t\tpackageProductDependencies = (\n\t\t\t);\n\t\t\tproductName = PaykitDemoTests;\n\t\t\tproductReference = " ++
      ids.test_product_id ++
      ofStr " /* PaykitDemoTests.xctest */;\n\t\t\tproductType = \"com.apple.product-type.bundle.unit-test\";\n\t\t\x7d;\n" := by
  refine ⟨?_, rfl⟩
  intro p i h
  unfold step_native_target
  rw [h]

/-- Witness for C6 at a content equal to the marker itself. -/
theorem c6_native_target_insertion_witness :
    step_native_target wids (native_end_pat, []) =
      (insertAt 0 (test_target wids) native_end_pat, [test_target wids]) :=
  (c6_native_target_insertion wids).1 (native_end_pat, []) 0 (by decide)

/-- C7: when the End XCConfigurationList marker is present in the content
reaching that edit, add_test_target inserts immediately before its first
occurrence one block holding the Debug XCBuildConfiguration, the Release
XCBuildConfiguration, and the XCConfigurationList whose buildConfigurations
are exactly the generated Debug and Release configuration ids in that order
and whose defaultConfigurationName is Release, as the block text spells
out. -/
theorem c7_configuration_insertion (ids : Ids) :
    (∀ p : St, ∀ i : Nat, findOcc config_end_pat p.1 = some i →
      step_configs ids p =
        (insertAt i (test_debug_config ids) p.1, p.2 ++ [test_debug_config ids])) ∧
    test_debug_config ids =
      ofStr "\t\t" ++
      ids.test_debug_config_id ++
      ofStr " /* Debug */ = \x7b\n\t\t\tisa = XCBuildConfiguration;\n\t\t\tbuildSettings = \x7b\n\t\t\t\tBUNDLE_LOADER = \"$(TEST_HOST)\";\n\t\t\t\tCODE_SIGN_STYLE = Automatic;\n\t\t\t\tCURRENT_PROJECT_VERSION = 1;\n\t\t\t\tGENERATE_INFOPLIST_FILE = YES;\n\t\t\t\tINFOPLIST_KEY_UIApplicationSupportsIndirectInputEvents = YES;\n\t\t\t\tIPHONEOS_DEPLOYMENT_TARGET = 16.6;\n\t\t\t\tLD_RUNPATH_SEARCH_PATHS = (\n\t\t\t\t\t\"$(inherited)\",\n\t\t\t\t\t\"@executable_path/Frameworks\",\n\t\t\t\t\t\"@loader_path/Frameworks\",\n\t\t\t\t);\n\t\t\t\tMARKETING_VERSION = 1.0;\n\t\t\t\tPRODUCT_BUNDLE_IDENTIFIER = synonym.PaykitDemoTests;\n\t\t\t\tPRODUCT_NAME = \"$(TARGET_NAME)\";\n\t\t\t\tSWIFT_EMIT_LOC_STRINGS = NO;\n\t\t\t\tSWIFT_VERSION = 5.0;\n\t\t\t\tTEST_HOST = \"$(BUILT_PRODUCTS_DIR)/PaykitDemo.app/$(BUNDLE_EXECUTABLE_FOLDER_PATH)/PaykitDemo\";\n\t\t\t\x7d;\n\t\t\tname = Debug;\n\t\t\x7d;\n\t\t" ++
      ids.test_release_config_id ++
      ofStr " /* Release */ = \x7b\n\t\t\tisa = XCBuildConfiguration;\n\t\t\tbuildSettings = \x7b\n\t\t\t\tBUNDLE_LOADER = \"$(TEST_HOST)\";\n\t\t\t\tCODE_SIGN_STYLE = Automatic;\n\t\t\t\tCURRENT_PROJECT_VERSION = 1;\n\t\t\t\tGENERATE_INFOPLIST_FILE = YES;\n\t\t\t\tINFOPLIST_KEY_UIApplicationSupportsIndirectInputEvents = YES;\n\t\t\t\tIPHONEOS_DEPLOYMENT_TARGET = 16.6;\n\t\t\t\tLD_RUNPATH_SEARCH_PATHS = (\n\t\t\t\t\t\"$(inherited)\",\n\t\t\t\t\t\"@executable_path/Frameworks\",\n\t\t\t\t\"@loader_path/Frameworks\",\n\t\t\t);\n\t\t\t\tMARKETING_VERSION = 1.0;\n\t\t\t\tPRODUCT_BUNDLE_IDENTIFIER = synonym.PaykitDemoTests;\n\t\t\t\tPRODUCT_NAME = \"$(TARGET_NAME)\";\n\t\t\t\tSWIFT_EMIT_LOC_STRINGS = NO;\n\t\t\t\tSWIFT_VERSION = 5.0;\n\t\t\t\tTEST_HOST = \"$(BUILT_PRODUCTS_DIR)/PaykitDemo.app/$(BUNDLE_EXECUTABLE_FOLDER_PATH)/PaykitDemo\";\n\t\t\t\x7d;\n\t\t\tname = Release;\n\t\t\x7d;\n\t\t" ++
      ids.test_build_config_list_id ++
      ofStr " /* Build configuration list for PBXNativeTarget \"PaykitDemoTests\" */ = \x7b\n\t\t\tisa = XCConfigurationList;\n\t\t\tbuildConfigurations = (\n\t\t\t\t" ++
      ids.test_debug_config_id ++
      ofStr " /* Debug */,\n\t\t\t\t" ++
      ids.test_release_config_id ++
      ofStr " /* Release */,\n\t\t\t);\n\t\t\tdefaultConfigurationIsVisible = 0;\n\t\t\tdefaultConfigurationName = Release;\n\t\t\x7d;\n" := by
  refine ⟨?_, rfl⟩
  intro p i h
  unfold step_configs
  rw [h]

/-- Witness for C7 at a content equal to the marker itself. -/
theorem c7_configuration_insertion_witness :
    step_configs wids (config_end_pat, []) =
      (insertAt 0 (test_debug_config wids) config_end_pat, [test_debug_config wids]) :=
  (c7_configuration_insertion wids).1 (config_end_pat, []) 0 (by decide)

/-- C9: every call of generate_id, i.e. its value at every possible drawn
128-bit uuid value, is a string of exactly 24 characters, each of which is
an uppercase hexadecimal digit 0-9 or A-F. -/
theorem c9_generate_id_shape (n : Nat) (h : n < 2 ^ 128) :
    (generate_id n).length = 24 ∧ ∀ ch ∈ generate_id n, isHexUpper ch = true := by
  have hdlen : (Nat.digits 16 n).length ≤ 32 := by
    by_contra hcon
    push_neg at hcon
    rcases Nat.eq_zero_or_pos n with h0 | hpos
    · subst h0
      simp at hcon
    · have h1 : 16 ^ (Nat.digits 16 n).length ≤ 16 * n :=
        Nat.base_pow_length_digits_le 16 n (by norm_num) (by omega)
      have h2 : (16 : Nat) ^ 33 ≤ 16 ^ (Nat.digits 16 n).length :=
        Nat.pow_le_pow_right (by norm_num) hcon
      have h5 : (16 : Nat) ^ 33 ≤ 16 * n := le_trans h2 h1
      have h4 : (16 : Nat) * 2 ^ 128 = 16 ^ 33 := by norm_num
      have h3 : 16 * n < 16 * 2 ^ 128 := by omega
      rw [h4] at h3
      omega
  have hux : (uuidHex n).length = 32 := by
    unfold uuidHex hexChars
    simp only [List.length_append, List.length_replicate, List.length_reverse,
      List.length_map]
    omega
  constructor
  · unfold generate_id
    rw [List.length_map, List.length_take, hux]
    decide
  · intro ch hch
    unfold generate_id at hch
    rw [List.mem_map] at hch
    obtain ⟨c, hc, hceq⟩ := hch
    have hc2 : c ∈ uuidHex n := List.mem_of_mem_take hc
    unfold uuidHex at hc2
    rw [List.mem_append] at hc2
    rcases hc2 with hrep | hhexc
    · have hc0 : c = '0' := List.eq_of_mem_replicate hrep
      rw [← hceq, hc0]
      decide
    · unfold hexChars at hhexc
      rw [List.mem_reverse, List.mem_map] at hhexc
      obtain ⟨d, hd, hdeq⟩ := hhexc
      have hdlt : d < 16 := Nat.digits_lt_base (by norm_num) hd
      rw [← hceq, ← hdeq]
      interval_cases d <;> decide

/-- Witness for C9 at the concrete uuid value 5. -/
theorem c9_generate_id_shape_witness :
    (generate_id 5).length = 24 ∧ ∀ ch ∈ generate_id 5, isHexUpper ch = true :=
  c9_generate_id_shape 5 (by norm_num)

/-- C10: the dependencies list of the inserted native-target block carries a
freshly generated PBXTargetDependency id that ends up occurring exactly once
in the written file: no PBXTargetDependency object with that id is ever
inserted anywhere, so the reference is dangling.  Freshness of the id is the
hypothesis set: it is a 24-character uppercase-hex string, different from
the eight other generated ids and from the hard-coded main-target id, and
absent from the input content; the native-target end marker must still be
present in the content reaching that edit, which is what makes the block
insertion happen. -/
theorem c10_dangling_dependency (ids : Ids) (content out : List Char)
    (h24 : ids.dep_id.length = 24)
    (hhex : ∀ ch ∈ ids.dep_id, isHexUpper ch = true)
    (hl1 : ids.test_target_id.length = 24) (hn1 : ids.dep_id ≠ ids.test_target_id)
    (hl2 : ids.test_product_id.length = 24) (hn2 : ids.dep_id ≠ ids.test_product_id)
    (hl3 : ids.test_sources_phase_id.length = 24)
    (hn3 : ids.dep_id ≠ ids.test_sources_phase_id)
    (hl4 : ids.test_frameworks_phase_id.length = 24)
    (hn4 : ids.dep_id ≠ ids.test_frameworks_phase_id)
    (hl5 : ids.test_build_config_list_id.length = 24)
    (hn5 : ids.dep_id ≠ ids.test_build_config_list_id)
    (hl6 : ids.test_debug_config_id.length = 24)
    (hn6 : ids.dep_id ≠ ids.test_debug_config_id)
    (hl7 : ids.test_release_config_id.length = 24)
    (hn7 : ids.dep_id ≠ ids.test_release_config_id)
    (hl8 : ids.test_group_id.length = 24) (hn8 : ids.dep_id ≠ ids.test_group_id)
    (hn9 : ids.dep_id ≠ ofStr "5224F5F42EED89A600A4DEB4")
    (hfresh : countOcc ids.dep_id content = 0)
    (hnat : (findOcc native_end_pat
      ((step_frameworks ids (step_sources ids (step_products ids
        (step_group ids (step_file_ref ids (content, [])))))).1)).isSome = true)
    (h : add_test_target ids content = some out) :
    countOcc ids.dep_id out = 1 := by
  cases hf : findOcc main_target_pat content with
  | none =>
    rw [add_test_target_eq_none ids content hf] at h
    exact Option.noConfusion h
  | some m =>
    rw [add_test_target_eq_some ids content m hf] at h
    have hout : (run_edits ids (content, [])).1 = out := Option.some.inj h
    rw [← hout]
    have e1 := count_step_file_ref ids (content, []) h24 hhex
      (count_test_file_ref ids h24 hhex hl2 hn2)
    have e2 := count_step_group ids (step_file_ref ids (content, [])) h24 hhex
      (count_test_group_ref ids h24 hhex hl8 hn8)
      (count_test_group_def ids h24 hhex hl8 hn8)
    have e3 := count_step_products ids
      (step_group ids (step_file_ref ids (content, []))) h24 hhex
      (count_test_product_ref ids h24 hhex hl2 hn2)
    have e4 := count_step_sources ids
      (step_products ids (step_group ids (step_file_ref ids (content, [])))) h24 hhex
      (count_test_sources_phase ids h24 hhex hl3 hn3)
    have e5 := count_step_frameworks ids
      (step_sources ids (step_products ids (step_group ids
        (step_file_ref ids (content, []))))) h24 hhex
      (count_test_frameworks_phase ids h24 hhex hl4 hn4)
    have e6 := count_step_native_target ids
      (step_frameworks ids (step_sources ids (step_products ids (step_group ids
        (step_file_ref ids (content, [])))))) h24 hhex hnat
      (count_test_target ids h24 hhex hl1 hn1 hl5 hn5 hl3 hn3 hl4 hn4 hl2 hn2)
    have e7 := count_step_targets_list ids
      (step_native_target ids (step_frameworks ids (step_sources ids
        (step_products ids (step_group ids (step_file_ref ids (content, []))))))) h24 hhex
      (count_test_target_ref ids h24 hhex hl1 hn1)
    have e8 := count_step_configs ids
      (step_targets_list ids (step_native_target ids (step_frameworks ids
        (step_sources ids (step_products ids (step_group ids
          (step_file_ref ids (content, [])))))))) h24 hhex
      (count_test_debug_config ids h24 hhex hl6 hn6 hl7 hn7 hl5 hn5)
    have e9 := count_step_target_attrs ids
      (step_configs ids (step_targets_list ids (step_native_target ids
        (step_frameworks ids (step_sources ids (step_products ids (step_group ids
          (step_file_ref ids (content, []))))))))) h24 hhex
      (count_test_target_attrs ids h24 hhex hl1 hn1 hn9)
    show countOcc ids.dep_id (step_target_attrs ids (step_configs ids
      (step_targets_list ids (step_native_target ids (step_frameworks ids
        (step_sources ids (step_products ids (step_group ids
          (step_file_ref ids (content, [])))))))))).1 = 1
    rw [e9, e8, e7, e6, e5, e4, e3, e2, e1]
    show countOcc ids.dep_id content + 1 = 1
    rw [hfresh]

/-- Witness for C10: concrete fresh ids and a content made of the main
anchor, a newline and the native-target end marker. -/
theorem c10_dangling_dependency_witness :
    countOcc wids.dep_id ((run_edits wids (wc10, [])).1) = 1 := by
  have e1 : step_file_ref wids (wc10, []) = (wc10, []) := by
    unfold step_file_ref
    rw [show findOcc file_ref_begin_pat wc10 = none from by decide]
  have e2 : step_group wids (wc10, []) = (wc10, []) := by
    unfold step_group
    rw [show findOcc group_begin_pat wc10 = none from by decide]
  have e3 : step_products wids (wc10, []) = (wc10, []) := by
    unfold step_products
    rw [show searchBC products_lit wc10 = none from by decide]
  have e4 : step_sources wids (wc10, []) = (wc10, []) := by
    unfold step_sources
    rw [show findOcc sources_end_pat wc10 = none from by decide]
  have e5 : step_frameworks wids (wc10, []) = (wc10, []) := by
    unfold step_frameworks
    rw [show findOcc frameworks_end_pat wc10 = none from by decide]
  exact c10_dangling_dependency wids wc10 ((run_edits wids (wc10, [])).1)
    (by decide) (by decide) (by decide) (by decide) (by decide) (by decide)
    (by decide) (by decide) (by decide) (by decide) (by decide) (by decide)
    (by decide) (by decide) (by decide) (by decide) (by decide) (by decide)
    (by decide)
    (by decide)
    (by rw [e1, e2, e3, e4, e5]
        decide)
    (add_test_target_eq_some wids wc10 0 (by decide))

end AddTestTarget



